import Mathlib

/- Shallow embedding of the arxiv-research-mcp search pipeline:
   the feed client (query builder, date filter, date parsing), the
   PDF text extractor, the relevance ranker, the disk-backed result
   cache, and the server-side cache consultation.  Python datetimes
   are embedded as integers (an abstract linear timeline; the date
   filter counts in days, the cache TTL in hours — each component
   only ever compares or shifts times, so the unit is a comment, not
   code).  Relevance scores are embedded as rationals.  Filesystem
   state is an association list from file name to parsed-file
   content, where a `none` content stands for a file that exists but
   fails to parse (corruption). -/

set_option autoImplicit false
set_option maxRecDepth 16384

/- ---------------------------------------------------------------
   Data model (src/models/paper.py).
   `Paper` carries the fields of the pydantic model; URLs are plain
   strings here.
   --------------------------------------------------------------- -/

structure Paper where
  title : String
  authors : List String
  published : Int
  summary : String
  url : String
  pdf_url : String
  categories : List String
  relevance_score : Option ℚ := none
  full_text : Option String := none
  processed_at : Option Int := none
  arxiv_id : Option String := none
  doi : Option String := none
  journal : Option String := none
deriving DecidableEq

/- ---------------------------------------------------------------
   Python string methods, embedded over the character list of the
   string (Python indexes and slices strings by code point, which
   is exactly the character list).
   --------------------------------------------------------------- -/

/-- str.lower(). -/
def py_lower (s : String) : String := String.mk (s.toList.map Char.toLower)

/-- str.strip(): drop whitespace from both ends. -/
def py_strip (s : String) : String :=
  String.mk (((s.toList.dropWhile Char.isWhitespace).reverse.dropWhile
    Char.isWhitespace).reverse)

/-- s[:n]. -/
def py_take (s : String) (n : Nat) : String := String.mk (s.toList.take n)

/-- c in s. -/
def contains_char (s : String) (c : Char) : Bool := s.toList.contains c

/-- str.endswith(suf). -/
def ends_with (s suf : String) : Bool :=
  List.take suf.toList.length s.toList.reverse == suf.toList.reverse

def split_ws_aux : List Char → List Char → List String
  | [], acc => if acc == [] then [] else [String.mk acc.reverse]
  | c :: cs, acc =>
    if c.isWhitespace then
      if acc == [] then split_ws_aux cs []
      else String.mk acc.reverse :: split_ws_aux cs []
    else split_ws_aux cs (c :: acc)

/-- str.split() with no separator: split on runs of whitespace,
dropping empty pieces. -/
def py_split_ws (s : String) : List String := split_ws_aux s.toList []

/- ---------------------------------------------------------------
   Date parsing (src/utils/date_utils.py, parse_arxiv_date).
   Python's datetime.strptime on the four fixed format strings is
   embedded as four exact-shape parsers over the character list,
   with the same field-validity checks (month/day ranges with leap
   years, hour/minute/second ranges).  Zero-padded fields are
   assumed, as in every arXiv feed timestamp.
   --------------------------------------------------------------- -/

structure DateTime where
  year : Nat
  month : Nat
  day : Nat
  hour : Nat
  minute : Nat
  second : Nat
deriving DecidableEq

def digit_val (c : Char) : Nat := c.toNat - 48

def two_digits (a b : Char) : Option Nat :=
  if a.isDigit && b.isDigit then some (digit_val a * 10 + digit_val b) else none

def four_digits (a b c d : Char) : Option Nat :=
  if a.isDigit && b.isDigit && c.isDigit && d.isDigit then
    some (digit_val a * 1000 + digit_val b * 100 + digit_val c * 10 + digit_val d)
  else none

def is_leap_year (y : Nat) : Bool :=
  (y % 4 == 0 && y % 100 != 0) || (y % 400 == 0)

def days_in_month (y m : Nat) : Nat :=
  if m == 2 then (if is_leap_year y then 29 else 28)
  else if m == 4 || m == 6 || m == 9 || m == 11 then 30
  else 31

def mk_valid_date (y mo d h mi s : Nat) : Option DateTime :=
  if 1 ≤ mo ∧ mo ≤ 12 ∧ 1 ≤ d ∧ d ≤ days_in_month y mo ∧ h ≤ 23 ∧ mi ≤ 59 ∧ s ≤ 59 then
    some ⟨y, mo, d, h, mi, s⟩
  else none

/-- strptime with format "%Y-%m-%dT%H:%M:%SZ". -/
def strptime_iso_z (str : String) : Option DateTime :=
  match str.toList with
  | [y1, y2, y3, y4, '-', m1, m2, '-', d1, d2, 'T',
     h1, h2, ':', n1, n2, ':', s1, s2, 'Z'] =>
    match four_digits y1 y2 y3 y4, two_digits m1 m2, two_digits d1 d2,
          two_digits h1 h2, two_digits n1 n2, two_digits s1 s2 with
    | some y, some mo, some d, some h, some mi, some s => mk_valid_date y mo d h mi s
    | _, _, _, _, _, _ => none
  | _ => none

/-- strptime with format "%Y-%m-%d". -/
def strptime_date_only (str : String) : Option DateTime :=
  match str.toList with
  | [y1, y2, y3, y4, '-', m1, m2, '-', d1, d2] =>
    match four_digits y1 y2 y3 y4, two_digits m1 m2, two_digits d1 d2 with
    | some y, some mo, some d => mk_valid_date y mo d 0 0 0
    | _, _, _ => none
  | _ => none

/-- strptime with format "%m/%d/%Y". -/
def strptime_mdy (str : String) : Option DateTime :=
  match str.toList with
  | [m1, m2, '/', d1, d2, '/', y1, y2, y3, y4] =>
    match four_digits y1 y2 y3 y4, two_digits m1 m2, two_digits d1 d2 with
    | some y, some mo, some d => mk_valid_date y mo d 0 0 0
    | _, _, _ => none
  | _ => none

/-- strptime with format "%d/%m/%Y". -/
def strptime_dmy (str : String) : Option DateTime :=
  match str.toList with
  | [d1, d2, '/', m1, m2, '/', y1, y2, y3, y4] =>
    match four_digits y1 y2 y3 y4, two_digits m1 m2, two_digits d1 d2 with
    | some y, some mo, some d => mk_valid_date y mo d 0 0 0
    | _, _, _ => none
  | _ => none

/-- parse_arxiv_date from src/utils/date_utils.py.  The branch
structure mirrors the Python source exactly: the first two formats
fall back to `now` when strptime raises ValueError (the outer
handler), the bare else branch returns `now`, but a string that
contains a slash and fails both slash formats hits the inner
`pass` and falls off the end of the function, which in Python
yields None — embedded as the `none` result. -/
def parse_arxiv_date (now : DateTime) (date_string : String) : Option DateTime :=
  if contains_char date_string 'T' && ends_with date_string "Z" then
    match strptime_iso_z date_string with
    | some d => some d
    | none => some now
  else if contains_char date_string '-' && decide (10 ≤ date_string.length) then
    match strptime_date_only (py_take date_string 10) with
    | some d => some d
    | none => some now
  else if contains_char date_string '/' then
    match strptime_mdy date_string with
    | some d => some d
    | none =>
      match strptime_dmy date_string with
      | some d => some d
      | none => none
  else
    some now

/- ---------------------------------------------------------------
   Date filter (src/services/arxiv_client.py, _filter_by_date).
   `now` and `published` are in days on the abstract timeline;
   `timedelta(days=years_back * 365)` is `years_back * 365`.
   --------------------------------------------------------------- -/

def filter_by_date (now : Int) (papers : List Paper) (years_back : Int) : List Paper :=
  papers.filter (fun p => now - years_back * 365 ≤ p.published)

/- ---------------------------------------------------------------
   Search query construction (src/services/arxiv_client.py,
   _build_search_query).  `query.lower().split()` splits on runs of
   whitespace and drops empty pieces; the loop appends one
   three-field disjunction per token; the pieces are joined with
   " AND ".
   --------------------------------------------------------------- -/

def query_terms (query : String) : List String :=
  py_split_ws (py_lower query)

def term_clause (t : String) : String :=
  "(ti:" ++ t ++ " OR abs:" ++ t ++ " OR cat:" ++ t ++ ")"

def build_search_query (query : String) : String :=
  let formatted_terms := (query_terms query).foldl (fun acc t => acc ++ [term_clause t]) []
  String.intercalate " AND " formatted_terms

/- ---------------------------------------------------------------
   Result cache (src/services/cache_manager.py).
   The cache directory is an association list from file name to
   parsed content; `some none` is a present-but-corrupt file.  The
   md5 hex digest of the key string is abstracted to the key string
   itself (any injective keying function gives the same read/write
   behaviour); file names keep the ".json" suffix the code appends,
   which the clear sweep filters on.  Serialization of a CacheEntry
   through pydantic JSON is lossless, so a stored entry is kept in
   parsed form.  Write failures of the filesystem are not modelled.
   --------------------------------------------------------------- -/

structure CacheEntry where
  query : String
  years_back : Int
  papers : List Paper
  created_at : Int
  expires_at : Int
deriving DecidableEq

abbrev CacheStore := List (String × Option CacheEntry)

structure CacheManager where
  enabled : Bool
  ttl_hours : Int
deriving DecidableEq

def cache_key (query : String) (years_back : Int) : String :=
  py_strip (py_lower query) ++ "_" ++ toString years_back

def cache_file_name (query : String) (years_back : Int) : String :=
  cache_key query years_back ++ ".json"

def read_file (store : CacheStore) (name : String) : Option (Option CacheEntry) :=
  store.lookup name

def remove_file (store : CacheStore) (name : String) : CacheStore :=
  store.filter (fun f => f.1 ≠ name)

def write_file (store : CacheStore) (name : String) (v : Option CacheEntry) : CacheStore :=
  (name, v) :: remove_file store name

/-- get_cached_results: returns the cached papers on a valid hit and
the updated directory state.  A missing file is a miss; an expired
file (`now < expires_at` fails) is deleted and reported as a miss;
a corrupt file raises inside the `try`, and the handler deletes it
and reports a miss — every branch returns normally. -/
def get_cached_results (cm : CacheManager) (now : Int) (store : CacheStore)
    (query : String) (years_back : Int) : Option (List Paper) × CacheStore :=
  if cm.enabled then
    match read_file store (cache_file_name query years_back) with
    | none => (none, store)
    | some none => (none, remove_file store (cache_file_name query years_back))
    | some (some entry) =>
      if now < entry.expires_at then (some entry.papers, store)
      else (none, remove_file store (cache_file_name query years_back))
  else (none, store)

/-- cache_results: writes a whole entry file for the key, with
`created_at = now` and `expires_at = now + ttl_hours`, overwriting
any previous entry; returns True, or False when caching is
disabled. -/
def cache_results (cm : CacheManager) (now : Int) (store : CacheStore)
    (query : String) (years_back : Int) (papers : List Paper) : Bool × CacheStore :=
  if cm.enabled then
    let entry : CacheEntry :=
      { query := query, years_back := years_back, papers := papers,
        created_at := now, expires_at := now + cm.ttl_hours }
    (true, write_file store (cache_file_name query years_back) (some entry))
  else (false, store)

/-- The removal loop of clear_cache.  `fails` is the removal oracle:
`fails f = true` means `os.remove` raises on file `f`.  The Python
`try` wraps the whole `for` loop, so the first raising removal
leaves the loop and returns the count accumulated so far; the
raising file and everything after it stay on disk. -/
def clear_loop (fails : String → Bool) : CacheStore → Nat → Nat × CacheStore
  | [], n => (n, [])
  | (f, v) :: rest, n =>
    if ends_with f ".json" then
      if fails f then (n, (f, v) :: rest)
      else clear_loop fails rest (n + 1)
    else
      let r := clear_loop fails rest n
      (r.1, (f, v) :: r.2)

def clear_cache (fails : String → Bool) (cm : CacheManager) (store : CacheStore) :
    Nat × CacheStore :=
  if cm.enabled then clear_loop fails store 0 else (0, store)

def count_json (store : CacheStore) : Nat :=
  (store.filter (fun f => ends_with f.1 ".json")).length

def remove_json (store : CacheStore) : CacheStore :=
  store.filter (fun f => !ends_with f.1 ".json")

/- ---------------------------------------------------------------
   PDF text extraction (src/services/pdf_processor.py).
   The two extraction strategies (PyPDF2 and pdfplumber over the
   first 20 pages) are abstracted as their outcomes: `none` when
   the strategy raises, `some text` when it returns `text`.  The
   acceptance guard is Python's `if text and len(text.strip()) > 100`.
   --------------------------------------------------------------- -/

def accept_text (t : String) : Bool :=
  decide (t ≠ "") && decide (100 < (py_strip t).length)

def extract_text_multiple_methods (r1 r2 : Option String) : Option String :=
  let second : Option String :=
    match r2 with
    | some t => if accept_text t then some t else none
    | none => none
  match r1 with
  | some t => if accept_text t then some t else second
  | none => second

def sufficient_text (r : Option String) : Bool :=
  match r with
  | some t => accept_text t
  | none => false

/-- Outcome of the external effects of one document's extraction:
whether the HTTP download succeeded, and what each extraction
strategy produced (`none` = the strategy raised). -/
structure DocOutcome where
  download_ok : Bool
  method_a : Option String
  method_b : Option String

def truncation_marker : String := "\n\n[Text truncated due to length limit]"

/-- extract_text_from_url: the whole body sits inside one
`try/except` that returns None, so every failure (download error,
timeout, insufficient text) yields `none` and nothing escapes. -/
def extract_text_from_url (max_len : Nat) (o : DocOutcome) : Option String :=
  if o.download_ok then
    match extract_text_multiple_methods o.method_a o.method_b with
    | some text =>
      if accept_text text then
        some (if max_len < text.length then
                py_strip (py_take text max_len ++ truncation_marker)
              else py_strip text)
      else none
    | none => none
  else none

def process_single_paper (max_len : Nat) (outcome : Paper → DocOutcome) (p : Paper) : Paper :=
  { p with full_text := extract_text_from_url max_len (outcome p) }

/-- process_papers_batch: one task per paper via asyncio.gather with
return_exceptions=True, then a filter dropping results that are
exceptions.  A task's value is `Except.ok` of the updated paper in
every case, because extract_text_from_url is total (its try/except
swallows every per-document failure) and the field assignment
cannot raise. -/
def process_papers_batch (max_len : Nat) (outcome : Paper → DocOutcome)
    (papers : List Paper) : List Paper :=
  let processed : List (Except Unit Paper) :=
    papers.map (fun p => Except.ok (process_single_paper max_len outcome p))
  processed.filterMap (fun r =>
    match r with
    | Except.ok p => some p
    | Except.error _ => none)

/- ---------------------------------------------------------------
   Relevance ranking (src/services/relevance_ranker.py).
   The regex text normalizer `_clean_text` is abstracted as a
   function parameter `clean`; TF-IDF vectorization plus cosine
   similarity (steps that can raise on a degenerate corpus) is
   abstracted as `vec`, which either raises (`Except.error`) or
   returns the similarity of the query vector (last corpus entry)
   to each paper vector, as rationals.  A similarity list shorter
   than the paper list corresponds to the IndexError the score
   assignment loop would raise, which the same handler catches.
   --------------------------------------------------------------- -/

def prepare_paper_texts (clean : String → String) (papers : List Paper) : List String :=
  papers.map (fun p =>
    let base := [p.title, p.summary, String.intercalate " " p.categories]
    let parts :=
      match p.full_text with
      | some ft => if ft ≠ "" then base ++ [py_take ft 2000] else base
      | none => base
    clean (String.intercalate " " parts))

def all_texts (clean : String → String) (papers : List Paper) (query : String) : List String :=
  prepare_paper_texts clean papers ++ [clean query]

def score_of (p : Paper) : ℚ :=
  match p.relevance_score with
  | some s => s
  | none => 0

def insert_desc (p : Paper) : List Paper → List Paper
  | [] => [p]
  | q :: rest => if score_of p < score_of q then q :: insert_desc p rest else p :: q :: rest

/-- Stable descending sort by relevance_score, as Python's
`sorted(key=score, reverse=True)`. -/
def sort_by_score_desc : List Paper → List Paper
  | [] => []
  | p :: rest => insert_desc p (sort_by_score_desc rest)

def min_relevance_score : ℚ := 1 / 1000

/-- rank_papers: empty input returns immediately; otherwise score,
filter against the 0.001 threshold and sort descending, and if
anything in the scoring block raises, the handler assigns score 0.0
to every paper and returns the input list unchanged in order. -/
def rank_papers (clean : String → String) (vec : List String → Except Unit (List ℚ))
    (papers : List Paper) (query : String) : List Paper :=
  if papers.isEmpty then papers
  else
    match vec (all_texts clean papers query) with
    | Except.error _ => papers.map (fun p => { p with relevance_score := some 0 })
    | Except.ok sims =>
      if papers.length ≤ sims.length then
        let scored := (papers.zip sims).map (fun pr => { pr.1 with relevance_score := some pr.2 })
        let filtered := scored.filter (fun p => min_relevance_score ≤ score_of p)
        sort_by_score_desc filtered
      else
        papers.map (fun p => { p with relevance_score := some 0 })

/- ---------------------------------------------------------------
   Server-side cache consultation (src/server.py,
   search_arxiv_papers_tool).  After `get_cached_results` the code
   branches on `if cached_papers:` — Python truthiness, under which
   both None and the empty list select the fresh-fetch branch.  The
   pair returned here is (papers used, served-from-cache flag).
   --------------------------------------------------------------- -/

def search_tool_papers (cached : Option (List Paper)) (fresh : List Paper) :
    List Paper × Bool :=
  match cached with
  | some ps => if ps.isEmpty then (fresh, false) else (ps, true)
  | none => (fresh, false)

/- ---------------------------------------------------------------
   Concrete instances used to evaluate the definitions.
   --------------------------------------------------------------- -/

def now_dt : DateTime := ⟨2024, 6, 1, 0, 0, 0⟩

def paper_a : Paper :=
  { title := "Attention Is All You Need", authors := ["Ashish Vaswani"], published := 100,
    summary := "transformer models", url := "http://arxiv.org/abs/1706.03762",
    pdf_url := "http://arxiv.org/pdf/1706.03762", categories := ["cs.CL"] }

/-- A paper published exactly at the date-filter cutoff for
`now = 0`, `years_back = 1` (365 days before now). -/
def paper_boundary : Paper :=
  { title := "Boundary", authors := [], published := -365, summary := "",
    url := "u", pdf_url := "v", categories := [] }

def cm_on : CacheManager := { enabled := true, ttl_hours := 24 }

def entry_expired : CacheEntry :=
  { query := "q", years_back := 1, papers := [], created_at := 0, expires_at := 5 }

def store_expired : CacheStore := [(cache_file_name "q" 1, some entry_expired)]

/-- A valid, unexpired cache entry whose papers list is empty. -/
def entry_empty : CacheEntry :=
  { query := "q", years_back := 1, papers := [], created_at := 0, expires_at := 100 }

def store_empty_papers : CacheStore := [(cache_file_name "q" 1, some entry_empty)]

/-- Removal oracle under which only "b.json" fails to be removed. -/
def fails_b : String → Bool := fun s => s == "b.json"

def store_three : CacheStore := [("a.json", none), ("b.json", none), ("c.json", none)]

/-- Strategy-A output of 50 characters. -/
def text_a : String := String.mk (List.replicate 50 'a')

/-- Strategy-B output of 500 characters. -/
def text_b : String := String.mk (List.replicate 500 'b')

def vec_fail : List String → Except Unit (List ℚ) := fun _ => Except.error ()

/- ---------------------------------------------------------------
   Helper lemmas.
   --------------------------------------------------------------- -/

theorem read_write_self (store : CacheStore) (name : String) (v : Option CacheEntry) :
    read_file (write_file store name v) name = some v := by
  simp [read_file, write_file, List.lookup]

theorem foldl_append_eq_map {α β : Type} (f : α → β) (l : List α) (acc : List β) :
    l.foldl (fun a t => a ++ [f t]) acc = acc ++ l.map f := by
  induction l generalizing acc with
  | nil => simp
  | cons x xs ih => simp [List.foldl_cons, ih (acc ++ [f x])]

theorem accept_of_trim_gt (t : String) (h : 100 < (py_strip t).length) : accept_text t = true := by
  have hne : t ≠ "" := by
    intro he
    subst he
    exact absurd h (by decide)
  simp [accept_text, hne, h]

/- ---------------------------------------------------------------
   C1 and C2: cache round-trip and miss semantics.
   --------------------------------------------------------------- -/

/-- C1: with the cache enabled, `cache_results` for a key followed by
`get_cached_results` for the same key, at any time before the TTL
elapses, is a hit whose papers sequence equals the stored input. -/
theorem c1_cache_round_trip (cm : CacheManager) (t t' : Int) (store : CacheStore)
    (q : String) (yb : Int) (papers : List Paper)
    (hen : cm.enabled = true) (hfresh : t' < t + cm.ttl_hours) :
    (get_cached_results cm t' (cache_results cm t store q yb papers).2 q yb).1 = some papers := by
  simp [cache_results, hen, get_cached_results, read_write_self, hfresh]

theorem c1_witness :
    cm_on.enabled = true ∧ (0 : Int) < 0 + cm_on.ttl_hours ∧
    (get_cached_results cm_on 0 (cache_results cm_on 0 [] "Quantum" 2 [paper_a]).2
      "Quantum" 2).1 = some [paper_a] :=
  ⟨rfl, by decide, c1_cache_round_trip cm_on 0 0 [] "Quantum" 2 [paper_a] rfl (by decide)⟩

/-- C2: with the cache enabled, `get_cached_results` always returns
normally; a missing entry file is a miss with the store untouched, a
present entry with `expires_at ≤ now` is a miss with the backing
file removed, and a corrupt entry file is a miss with the backing
file removed. -/
theorem c2_get_miss_semantics (cm : CacheManager) (t : Int) (store : CacheStore)
    (q : String) (yb : Int) (hen : cm.enabled = true) :
    (read_file store (cache_file_name q yb) = none →
      get_cached_results cm t store q yb = (none, store))
    ∧ (read_file store (cache_file_name q yb) = some none →
      get_cached_results cm t store q yb = (none, remove_file store (cache_file_name q yb)))
    ∧ (∀ e, read_file store (cache_file_name q yb) = some (some e) → e.expires_at ≤ t →
      get_cached_results cm t store q yb = (none, remove_file store (cache_file_name q yb))) := by
  refine ⟨fun h => ?_, fun h => ?_, fun e h hexp => ?_⟩
  · simp [get_cached_results, hen, h]
  · simp [get_cached_results, hen, h]
  · simp [get_cached_results, hen, h, not_lt.mpr hexp]

theorem c2_witness :
    entry_expired.expires_at ≤ 10 ∧
    get_cached_results cm_on 10 store_expired "q" 1 =
      (none, remove_file store_expired (cache_file_name "q" 1)) :=
  ⟨by decide,
   (c2_get_miss_semantics cm_on 10 store_expired "q" 1 rfl).2.2 entry_expired (by decide)
     (by decide)⟩

/- ---------------------------------------------------------------
   C3: date filter.
   --------------------------------------------------------------- -/

/-- C3 counterexample: the claim says a record whose `published`
falls exactly at the boundary instant `now - 365*Y` days is
excluded; the filter uses `>=`, so the boundary record is in the
output (here `now = 0`, `Y = 1`, `published = -365`). -/
theorem c3_counterexample :
    paper_boundary.published = 0 - 1 * 365 ∧
    filter_by_date 0 [paper_boundary] 1 = [paper_boundary] := by
  exact ⟨by decide, by decide⟩

/-- C3 (amended): for every candidate list and `years_back = Y`, the
date filter keeps exactly the records with
`published >= now - 365*Y` days, and a record exactly at the
boundary instant is included. -/
theorem c3_filter_by_date_characterization :
    (∀ (now yb : Int) (papers : List Paper) (p : Paper),
      p ∈ filter_by_date now papers yb ↔ p ∈ papers ∧ now - yb * 365 ≤ p.published)
    ∧ filter_by_date 0 [paper_boundary] 1 = [paper_boundary] := by
  constructor
  · intro now yb papers p
    simp [filter_by_date, List.mem_filter]
  · decide

/- ---------------------------------------------------------------
   C4: tolerant date parser.
   --------------------------------------------------------------- -/

/-- C4: evaluating the parser at the failing input.  A string that
contains a slash but matches neither slash format falls through the
inner `pass` and off the end of the Python function, producing None
instead of the documented fallback to the current time (the
function is annotated `-> datetime`); a string matching none of the
format guards does fall back to `now`. -/
theorem c4_parse_date_returns_none :
    parse_arxiv_date now_dt "13/13/2023" = none ∧
    parse_arxiv_date now_dt "someday" = some now_dt := by
  exact ⟨by decide, by decide⟩

/- ---------------------------------------------------------------
   C5: two-strategy extraction fallback.
   --------------------------------------------------------------- -/

/-- C5: the extractor returns strategy A's text when its stripped
length exceeds 100 characters; otherwise strategy B's text when
that exceeds 100; `none` when neither strategy yields sufficient
text; and on the 50-character/500-character instance it returns
strategy B's text. -/
theorem c5_extract_fallback :
    (∀ (t : String) (r2 : Option String), 100 < (py_strip t).length →
      extract_text_multiple_methods (some t) r2 = some t)
    ∧ (∀ (r1 : Option String) (u : String), sufficient_text r1 = false →
      100 < (py_strip u).length → extract_text_multiple_methods r1 (some u) = some u)
    ∧ (∀ (r1 r2 : Option String), sufficient_text r1 = false → sufficient_text r2 = false →
      extract_text_multiple_methods r1 r2 = none)
    ∧ extract_text_multiple_methods (some text_a) (some text_b) = some text_b := by
  have h1 : ∀ (t : String) (r2 : Option String), 100 < (py_strip t).length →
      extract_text_multiple_methods (some t) r2 = some t := by
    intro t r2 h
    simp [extract_text_multiple_methods, accept_of_trim_gt t h]
  have h2 : ∀ (r1 : Option String) (u : String), sufficient_text r1 = false →
      100 < (py_strip u).length → extract_text_multiple_methods r1 (some u) = some u := by
    intro r1 u hr1 hu
    cases r1 with
    | none => simp [extract_text_multiple_methods, accept_of_trim_gt u hu]
    | some t =>
      have ht : accept_text t = false := by simpa [sufficient_text] using hr1
      simp [extract_text_multiple_methods, ht, accept_of_trim_gt u hu]
  have h3 : ∀ (r1 r2 : Option String), sufficient_text r1 = false →
      sufficient_text r2 = false → extract_text_multiple_methods r1 r2 = none := by
    intro r1 r2 hr1 hr2
    cases r1 <;> cases r2 <;> simp_all [extract_text_multiple_methods, sufficient_text]
  exact ⟨h1, h2, h3, h2 (some text_a) text_b (by decide) (by decide)⟩

theorem c5_witness :
    sufficient_text (some text_a) = false ∧
    extract_text_multiple_methods (some text_a) none = none :=
  ⟨by decide, c5_extract_fallback.2.2.1 (some text_a) none (by decide) rfl⟩

/- ---------------------------------------------------------------
   C6: provider query construction.
   --------------------------------------------------------------- -/

/-- C6 counterexample: the claim says one field-disjunction clause
per distinct term; on the query "foo foo" the code emits one clause
per term occurrence, so the single distinct term gets two clauses. -/
theorem c6_counterexample :
    build_search_query "foo foo" =
      "(ti:foo OR abs:foo OR cat:foo) AND (ti:foo OR abs:foo OR cat:foo)"
    ∧ query_terms "foo foo" = ["foo", "foo"]
    ∧ (query_terms "foo foo").dedup = ["foo"] := by
  exact ⟨by decide, by decide, by decide⟩

/-- C6 (amended): for every query, the constructed provider query is
exactly one field-disjunction clause per term occurrence (in the
lowercased whitespace tokenization), conjoined with " AND ", in the
original term order. -/
theorem c6_one_clause_per_occurrence (q : String) :
    build_search_query q = String.intercalate " AND " ((query_terms q).map term_clause) := by
  simp [build_search_query, foldl_append_eq_map]

/- ---------------------------------------------------------------
   C7: ranker failure recovery.
   --------------------------------------------------------------- -/

/-- C7: for every non-empty candidate list and query, if
vectorization raises inside rank_papers, the handler returns all
input candidates in their original order with every
relevance_score set to 0.0; rank_papers is a total function of the
vectorization outcome, so the exception never reaches the caller. -/
theorem c7_rank_vectorization_failure (clean : String → String)
    (vec : List String → Except Unit (List ℚ)) (papers : List Paper) (query : String)
    (hne : papers ≠ []) (herr : vec (all_texts clean papers query) = Except.error ()) :
    rank_papers clean vec papers query =
      papers.map (fun p => { p with relevance_score := some 0 }) := by
  have hemp : papers.isEmpty = false := by
    cases papers with
    | nil => exact absurd rfl hne
    | cons a l => rfl
  simp [rank_papers, hemp, herr]

theorem c7_witness :
    rank_papers id vec_fail [paper_a] "quantum computing" =
      [{ paper_a with relevance_score := some 0 }] :=
  c7_rank_vectorization_failure id vec_fail [paper_a] "quantum computing" (by decide) rfl

/- ---------------------------------------------------------------
   C8: cache clear sweep.
   --------------------------------------------------------------- -/

theorem clear_loop_no_fail (fails : String → Bool) :
    ∀ (store : CacheStore) (n : Nat), (∀ f ∈ store, fails f.1 = false) →
    clear_loop fails store n = (n + count_json store, remove_json store) := by
  intro store
  induction store with
  | nil =>
    intro n h
    simp [clear_loop, count_json, remove_json]
  | cons hd tl ih =>
    intro n h
    obtain ⟨f, w⟩ := hd
    have hhd : fails f = false := h (f, w) (by simp)
    have htl : ∀ x ∈ tl, fails x.1 = false := fun x hx => h x (by simp [hx])
    cases hjson : ends_with f ".json" with
    | false =>
      simp [clear_loop, hjson, ih n htl, count_json, remove_json, List.filter_cons]
    | true =>
      simp [clear_loop, hjson, hhd, ih (n + 1) htl, count_json, remove_json, List.filter_cons]
      try omega

theorem clear_loop_abort (fails : String → Bool) (bad : String) (v : Option CacheEntry)
    (post : CacheStore) (hb : ends_with bad ".json" = true) (hf : fails bad = true) :
    ∀ (pre : CacheStore) (n : Nat), (∀ f ∈ pre, fails f.1 = false) →
    clear_loop fails (pre ++ (bad, v) :: post) n =
      (n + count_json pre, remove_json pre ++ (bad, v) :: post) := by
  intro pre
  induction pre with
  | nil =>
    intro n h
    simp [clear_loop, hb, hf, count_json, remove_json]
  | cons hd tl ih =>
    intro n h
    obtain ⟨f, w⟩ := hd
    have hhd : fails f = false := h (f, w) (by simp)
    have htl : ∀ x ∈ tl, fails x.1 = false := fun x hx => h x (by simp [hx])
    cases hjson : ends_with f ".json" with
    | false =>
      simp [clear_loop, hjson, ih n htl, count_json, remove_json, List.filter_cons]
    | true =>
      simp [clear_loop, hjson, hhd, ih (n + 1) htl, count_json, remove_json, List.filter_cons]
      try omega

/-- C8 (amended): with the cache enabled, the clear sweep removes
every .json entry file and returns their count when no individual
removal errors; an error while removing one file aborts the sweep —
that file and everything after it remain, and the count removed so
far is returned. -/
theorem c8_clear_cache_sweep (fails : String → Bool) (cm : CacheManager) (store : CacheStore)
    (hen : cm.enabled = true) :
    ((∀ f ∈ store, fails f.1 = false) →
      clear_cache fails cm store = (count_json store, remove_json store))
    ∧ (∀ (pre : CacheStore) (bad : String) (v : Option CacheEntry) (post : CacheStore),
      store = pre ++ (bad, v) :: post → ends_with bad ".json" = true → fails bad = true →
      (∀ f ∈ pre, fails f.1 = false) →
      clear_cache fails cm store = (count_json pre, remove_json pre ++ (bad, v) :: post)) := by
  constructor
  · intro h
    simp [clear_cache, hen, clear_loop_no_fail fails store 0 h]
  · intro pre bad v post hstore hb hf hpre
    subst hstore
    simp [clear_cache, hen, clear_loop_abort fails bad v post hb hf pre 0 hpre]

theorem c8_witness :
    clear_cache fails_b cm_on store_three = (1, [("b.json", none), ("c.json", none)]) := by
  have h := (c8_clear_cache_sweep fails_b cm_on store_three rfl).2
    [("a.json", none)] "b.json" none [("c.json", none)] rfl (by decide) rfl (by decide)
  rw [h]
  decide

/-- C8 counterexample: under a removal oracle where only "b.json"
fails, the sweep over a.json, b.json, c.json removes a.json, then
aborts: it returns count 1 and leaves c.json on disk even though
removing c.json would not fail — refuting that an error during one
removal does not abort the removal of the remaining files. -/
theorem c8_counterexample :
    (clear_cache fails_b cm_on store_three).1 = 1
    ∧ (clear_cache fails_b cm_on store_three).2 = [("b.json", none), ("c.json", none)]
    ∧ fails_b "c.json" = false := by
  exact ⟨by decide, by decide, rfl⟩

/- ---------------------------------------------------------------
   C9: batch extraction returns every record.
   --------------------------------------------------------------- -/

/-- C9: the batch extractor returns every input record in order —
each concurrent task's value is an updated paper, never an
exception, because the single-document extractor is total (all
per-document failures become full_text = none inside it), so the
drop-the-exceptions filter keeps everything and the output length
equals the input length. -/
theorem c9_batch_returns_all (max_len : Nat) (outcome : Paper → DocOutcome)
    (papers : List Paper) :
    process_papers_batch max_len outcome papers =
      papers.map (process_single_paper max_len outcome)
    ∧ (process_papers_batch max_len outcome papers).length = papers.length := by
  have h : process_papers_batch max_len outcome papers =
      papers.map (process_single_paper max_len outcome) := by
    induction papers with
    | nil => rfl
    | cons p ps ih => simpa [process_papers_batch] using ih
  exact ⟨h, by rw [h, List.length_map]⟩

/- ---------------------------------------------------------------
   C10: empty cached result set triggers a fresh fetch.
   --------------------------------------------------------------- -/

/-- C10: a valid, unexpired cache entry whose papers list is empty
is treated as a miss by the search pipeline: the tool branches on
the truthiness of the returned list, so the fresh fetch result is
used and the cached flag stays false. -/
theorem c10_empty_cached_list_is_miss (cm : CacheManager) (t : Int) (store : CacheStore)
    (q : String) (yb : Int) (fresh : List Paper) (e : CacheEntry)
    (hen : cm.enabled = true)
    (hread : read_file store (cache_file_name q yb) = some (some e))
    (hvalid : t < e.expires_at) (hempty : e.papers = []) :
    search_tool_papers (get_cached_results cm t store q yb).1 fresh = (fresh, false) := by
  simp [get_cached_results, hen, hread, hvalid, search_tool_papers, hempty]

theorem c10_witness :
    search_tool_papers (get_cached_results cm_on 10 store_empty_papers "q" 1).1 [paper_a] =
      ([paper_a], false) :=
  c10_empty_cached_list_is_miss cm_on 10 store_empty_papers "q" 1 [paper_a] entry_empty rfl
    (by decide) (by decide) rfl
